import Mathlib

/-!
Verification of the `sidekiq_base` radio-adapter wrapper
(`src/lib/sidekiq_base.cc`) against its natural-language specification.

The C++ class is a thin adapter over a vendor SDK: each operation invokes
vendor calls (directly or through a dispatch table of function pointers),
checks numeric status codes and throws `std::runtime_error` on failure.
We embed it shallowly: the vendor SDK is an oracle environment `HwEnv`
giving the status code (and output values) of each hardware call; an
operation is a pure function from the environment and the adapter state to
an `OpResult`, recording the outcome (`Except` with the exact exception
message thrown by the C++), the adapter state after the call (C++ member
mutations survive a throw, so the state is threaded into error outcomes
too), and the ordered list of vendor calls issued.

C++ `double` arguments are modelled as `ℚ`; the casts
`static_cast<uint32_t>` / `static_cast<uint64_t>` truncate toward zero and
have defined behavior only on `[0, 2^32)` resp. `[0, 2^64)`, so theorems
about them carry the corresponding bounds as hypotheses.
-/

namespace GrSidekiq

/-- The two channel handles held by the adapter: `hdl` (primary) and
`hdl2` (secondary), from the constructor (src lines 58-59). -/
inductive Hdl
  | primary
  | secondary
  deriving DecidableEq, Repr

/-- Oracle for the vendor SDK: the status code (and output data) each
hardware call would report.  Calls whose status the C++ never reads
(`skiq_is_accel_supported`, `skiq_write_accel_state`) have no status
field, only their output data where relevant. -/
structure HwEnv where
  start_streaming_status : Hdl → Int
  stop_streaming_status : Hdl → Int
  set_sample_rate_status : Hdl → Nat → Nat → Int
  set_frequency_status : Hdl → Nat → Int
  reset_timestamps_status : Int
  update_timestamps_status : Int
  read_curr_sys_timestamp_status : Int
  curr_sys_timestamp : Nat
  accel_supported : Bool
  read_accel_status : Int
  host_clock_nanos : Nat

/-- The adapter's mutable members used by the modelled operations:
`dual_channel`, the cached `sample_rate` / `bandwidth`, and
`sidekiq_system_time_interval_nanos` (computed at construction,
src line 69). -/
structure SkState where
  dual_channel : Bool
  sample_rate : Nat
  bandwidth : Nat
  sidekiq_system_time_interval_nanos : Nat
  deriving DecidableEq, Repr

/-- One vendor-SDK invocation, with the arguments passed to it. -/
inductive HwCall
  | startStreamingCall (h : Hdl)
  | stopStreamingCall (h : Hdl)
  | setSampleRateCall (h : Hdl) (rate : Nat) (bw : Nat)
  | setFrequencyCall (h : Hdl) (freq : Nat)
  | resetTimestampsCall
  | updateTimestampsCall (t : Nat)
  | isAccelSupportedCall
  | writeAccelStateCall (powered : Bool)
  | readAccelCall
  | readCurrSysTimestampCall
  deriving DecidableEq, Repr

/-- Outcome of one adapter operation: the C++ return value or thrown
exception message, the adapter state afterwards (mutations before a throw
persist), and the ordered vendor calls issued. -/
structure OpResult (α : Type) where
  result : Except String α
  state : SkState
  trace : List HwCall

/-- `NANOSECONDS_IN_SECOND` (src line 46). -/
def NANOSECONDS_IN_SECOND : Nat := 1000000000

/-- `SYNC_ZERO` (src line 38). -/
def SYNC_ZERO : Int := 1

/-- `SYNC_GPS_PPS` (src line 40). -/
def SYNC_GPS_PPS : Int := 2

/-- `SYNC_SYSTEM_TIME` (src line 42). -/
def SYNC_SYSTEM_TIME : Int := 3

/-- C++ `static_cast<uint32_t>` applied to a `double`: truncation toward
zero, which on the defined-behavior domain `[0, 2^32)` is the floor. -/
def castUInt32 (x : ℚ) : Nat := (⌊x⌋).toNat

/-- C++ `static_cast<uint64_t>` applied to a `double`: truncation toward
zero, which on the defined-behavior domain `[0, 2^64)` is the floor. -/
def castUInt64 (x : ℚ) : Nat := (⌊x⌋).toNat

/-- `sidekiq_system_time_interval_nanos` as computed by the constructor
(src line 69): `NANOSECONDS_IN_SECOND / timestamp_frequency`, an unsigned
integer division. -/
def mk_interval_nanos (timestamp_frequency : Nat) : Nat :=
  NANOSECONDS_IN_SECOND / timestamp_frequency

/-- `set_zero_timestamp` (src lines 181-187): `skiq_reset_timestamps`,
throwing on non-zero status. -/
def set_zero_timestamp (env : HwEnv) (st : SkState) : OpResult Unit :=
  if env.reset_timestamps_status ≠ 0 then
    ⟨.error "Failure: skiq_reset_timestamps", st, [.resetTimestampsCall]⟩
  else
    ⟨.ok (), st, [.resetTimestampsCall]⟩

/-- `set_sidekiq_system_timestamp` (src lines 213-219):
`skiq_update_timestamps(card, timestamp)`, throwing on non-zero status. -/
def set_sidekiq_system_timestamp (env : HwEnv) (st : SkState)
    (timestamp : Nat) : OpResult Unit :=
  if env.update_timestamps_status ≠ 0 then
    ⟨.error "Failure: skiq_update_timestamps", st,
      [.updateTimestampsCall timestamp]⟩
  else
    ⟨.ok (), st, [.updateTimestampsCall timestamp]⟩

/-- `get_sidekiq_system_timestamp` (src lines 221-230):
`skiq_read_curr_sys_timestamp`, throwing on non-zero status. -/
def get_sidekiq_system_timestamp (env : HwEnv) (st : SkState) :
    OpResult Nat :=
  if env.read_curr_sys_timestamp_status ≠ 0 then
    ⟨.error "Failure: skiq_read_curr_sys_timestamp", st,
      [.readCurrSysTimestampCall]⟩
  else
    ⟨.ok env.curr_sys_timestamp, st, [.readCurrSysTimestampCall]⟩

/-- `set_sync_type` (src lines 105-124).  `SYNC_ZERO` resets the hardware
timestamp; `SYNC_GPS_PPS` is an intentional no-op; `SYNC_SYSTEM_TIME`
converts the host wall clock (nanoseconds) to hardware ticks by unsigned
division by the cached tick interval and writes it; any other selector
matches no branch and does nothing. -/
def set_sync_type (env : HwEnv) (st : SkState) (sync : Int) :
    OpResult Unit :=
  if sync = SYNC_ZERO then
    set_zero_timestamp env st
  else if sync = SYNC_GPS_PPS then
    ⟨.ok (), st, []⟩
  else if sync = SYNC_SYSTEM_TIME then
    let system_clock_nanos := env.host_clock_nanos
    let sidekiq_timestamp :=
      system_clock_nanos / st.sidekiq_system_time_interval_nanos
    set_sidekiq_system_timestamp env st sidekiq_timestamp
  else
    ⟨.ok (), st, []⟩

/-- The two fixed telemetry dictionary keys (`CMD_CURRENT_USRP_TIME`,
`CMD_CURRENT_HOST_TIME`), distinct pmt symbols. -/
inductive TelemetryKey
  | CMD_CURRENT_USRP_TIME
  | CMD_CURRENT_HOST_TIME
  deriving DecidableEq, Repr

/-- A pmt dictionary mapping telemetry keys to (whole seconds, fractional
seconds) cons pairs. -/
abbrev TelemetryDict : Type := List (TelemetryKey × (Nat × ℚ))

/-- `pmt::make_dict()`: the empty dictionary. -/
def pmt_make_dict : TelemetryDict := []

/-- `pmt::dict_add(d, k, v)`: the dictionary `d` extended with `k ↦ v`
(keys added here are always fresh). -/
def pmt_dict_add (d : TelemetryDict) (k : TelemetryKey) (v : Nat × ℚ) :
    TelemetryDict := d ++ [(k, v)]

/-- `get_pmt_cons_from_timestamp` (src lines 87-92): split a nanosecond
timestamp into whole seconds (integer division) and fractional seconds
(`(timestamp % 1e9) / 1e9` as a real number). -/
def get_pmt_cons_from_timestamp (timestamp : Nat) : Nat × ℚ :=
  (timestamp / NANOSECONDS_IN_SECOND,
   ((timestamp % NANOSECONDS_IN_SECOND : Nat) : ℚ) / 1000000000)

/-- `get_telemetry_pmt` (src lines 94-103): read the hardware system
timestamp (ticks), convert to nanoseconds via the cached interval, read
the host clock, and build the two-key telemetry dictionary. -/
def get_telemetry_pmt (env : HwEnv) (st : SkState) :
    OpResult TelemetryDict :=
  match get_sidekiq_system_timestamp env st with
  | ⟨.error e, st1, tr⟩ => ⟨.error e, st1, tr⟩
  | ⟨.ok ticks, st1, tr⟩ =>
    let sidekiq_time_nanos := ticks * st.sidekiq_system_time_interval_nanos
    let system_clock_nanos := env.host_clock_nanos
    let result := pmt_make_dict
    let result := pmt_dict_add result .CMD_CURRENT_USRP_TIME
      (get_pmt_cons_from_timestamp sidekiq_time_nanos)
    let result := pmt_dict_add result .CMD_CURRENT_HOST_TIME
      (get_pmt_cons_from_timestamp system_clock_nanos)
    ⟨.ok result, st1, tr⟩

/-- `read_accelerometer` (src lines 243-263): query support (status of the
query itself is ignored); if unsupported, report informationally and do
nothing else; if supported, power on, sample once, power off (power-state
statuses ignored), then throw iff the sample read reported non-zero. -/
def read_accelerometer (env : HwEnv) (st : SkState) : OpResult Unit :=
  if !env.accel_supported then
    ⟨.ok (), st, [.isAccelSupportedCall]⟩
  else
    let status := env.read_accel_status
    if status ≠ 0 then
      ⟨.error "Failure: skiq_write_accel_state", st,
        [.isAccelSupportedCall, .writeAccelStateCall true, .readAccelCall,
         .writeAccelStateCall false]⟩
    else
      ⟨.ok (), st,
        [.isAccelSupportedCall, .writeAccelStateCall true, .readAccelCall,
         .writeAccelStateCall false]⟩

/-- `start_streaming` (src lines 295-312): in dual-channel mode start the
secondary channel first (throwing on non-zero status, which skips the
primary), then the primary channel. -/
def start_streaming (env : HwEnv) (st : SkState) : OpResult Int :=
  if st.dual_channel then
    let status := env.start_streaming_status .secondary
    if status ≠ 0 then
      ⟨.error "Failure: start streaming", st,
        [.startStreamingCall .secondary]⟩
    else
      let status := env.start_streaming_status .primary
      if status ≠ 0 then
        ⟨.error "Failure: start streaming", st,
          [.startStreamingCall .secondary, .startStreamingCall .primary]⟩
      else
        ⟨.ok status, st,
          [.startStreamingCall .secondary, .startStreamingCall .primary]⟩
  else
    let status := env.start_streaming_status .primary
    if status ≠ 0 then
      ⟨.error "Failure: start streaming", st, [.startStreamingCall .primary]⟩
    else
      ⟨.ok status, st, [.startStreamingCall .primary]⟩

/-- `stop_streaming` (src lines 314-331): same shape as `start_streaming`
with the stop entry point. -/
def stop_streaming (env : HwEnv) (st : SkState) : OpResult Int :=
  if st.dual_channel then
    let status := env.stop_streaming_status .secondary
    if status ≠ 0 then
      ⟨.error "Failure: stop streaming", st,
        [.stopStreamingCall .secondary]⟩
    else
      let status := env.stop_streaming_status .primary
      if status ≠ 0 then
        ⟨.error "Failure: stop streaming", st,
          [.stopStreamingCall .secondary, .stopStreamingCall .primary]⟩
      else
        ⟨.ok status, st,
          [.stopStreamingCall .secondary, .stopStreamingCall .primary]⟩
  else
    let status := env.stop_streaming_status .primary
    if status ≠ 0 then
      ⟨.error "Failure: stop streaming", st, [.stopStreamingCall .primary]⟩
    else
      ⟨.ok status, st, [.stopStreamingCall .primary]⟩

/-- `set_samplerate_bandwidth` (src lines 349-374): truncate rate and
bandwidth to `uint32_t`, write them to the primary channel (throwing on
non-zero status, cache untouched), otherwise update the cached
`sample_rate` / `bandwidth`, and in dual-channel mode also write the same
values to the secondary channel (throwing on non-zero status, with the
cache already updated). -/
def set_samplerate_bandwidth (env : HwEnv) (st : SkState)
    (sample_rate bandwidth : ℚ) : OpResult Int :=
  let rate := castUInt32 sample_rate
  let bw := castUInt32 bandwidth
  let status := env.set_sample_rate_status .primary rate bw
  if status ≠ 0 then
    ⟨.error "Failure: set samplerate", st,
      [.setSampleRateCall .primary rate bw]⟩
  else
    let st1 := { st with sample_rate := rate, bandwidth := bw }
    if st.dual_channel then
      let status2 := env.set_sample_rate_status .secondary rate bw
      if status2 ≠ 0 then
        ⟨.error "Failure: set samplerate", st1,
          [.setSampleRateCall .primary rate bw,
           .setSampleRateCall .secondary rate bw]⟩
      else
        ⟨.ok status2, st1,
          [.setSampleRateCall .primary rate bw,
           .setSampleRateCall .secondary rate bw]⟩
    else
      ⟨.ok status, st1, [.setSampleRateCall .primary rate bw]⟩

/-- `set_frequency` (src lines 391-409): in dual-channel mode set the
secondary channel's frequency first (throwing on non-zero status, which
skips the primary), then the primary; both receive
`static_cast<uint64_t>(value)`. -/
def set_frequency (env : HwEnv) (st : SkState) (value : ℚ) : OpResult Int :=
  if st.dual_channel then
    let status := env.set_frequency_status .secondary (castUInt64 value)
    if status ≠ 0 then
      ⟨.error "Failure: set frequency", st,
        [.setFrequencyCall .secondary (castUInt64 value)]⟩
    else
      let status := env.set_frequency_status .primary (castUInt64 value)
      if status ≠ 0 then
        ⟨.error "Failure: set frequency", st,
          [.setFrequencyCall .secondary (castUInt64 value),
           .setFrequencyCall .primary (castUInt64 value)]⟩
      else
        ⟨.ok status, st,
          [.setFrequencyCall .secondary (castUInt64 value),
           .setFrequencyCall .primary (castUInt64 value)]⟩
  else
    let status := env.set_frequency_status .primary (castUInt64 value)
    if status ≠ 0 then
      ⟨.error "Failure: set frequency", st,
        [.setFrequencyCall .primary (castUInt64 value)]⟩
    else
      ⟨.ok status, st, [.setFrequencyCall .primary (castUInt64 value)]⟩

/-- `get_set_frequency_call_latency` (src lines 427-434): issue one
frequency-set call at the hard-coded 2.4 GHz target and return the elapsed
wall-clock time.  The vendor status is never inspected, so the operation
always returns normally (elapsed time itself is not modelled). -/
def get_set_frequency_call_latency (_env : HwEnv) (st : SkState)
    (handle : Hdl) : OpResult Unit :=
  let frequency := castUInt64 ((2400e6 : ℚ))
  ⟨.ok (), st, [.setFrequencyCall handle frequency]⟩

/-! ### Concrete environments and states used to witness the theorems -/

/-- A hardware environment in which every call succeeds. -/
def envAllOk : HwEnv :=
  { start_streaming_status := fun _ => 0
    stop_streaming_status := fun _ => 0
    set_sample_rate_status := fun _ _ _ => 0
    set_frequency_status := fun _ _ => 0
    reset_timestamps_status := 0
    update_timestamps_status := 0
    read_curr_sys_timestamp_status := 0
    curr_sys_timestamp := 123456789
    accel_supported := true
    read_accel_status := 0
    host_clock_nanos := 2500000017 }

/-- Environment in which every frequency-set call reports status 5. -/
def envFreqFail : HwEnv :=
  { envAllOk with set_frequency_status := fun _ _ => 5 }

/-- Environment in which the primary-channel sample-rate write fails. -/
def envPrimSampleFail : HwEnv :=
  { envAllOk with
    set_sample_rate_status := fun h _ _ => if h = .primary then 3 else 0 }

/-- Environment in which the secondary-channel sample-rate write fails. -/
def envSecSampleFail : HwEnv :=
  { envAllOk with
    set_sample_rate_status := fun h _ _ => if h = .secondary then 4 else 0 }

/-- Environment in which the accelerometer sample read reports status 7. -/
def envAccelFail : HwEnv :=
  { envAllOk with read_accel_status := 7 }

/-- Environment reporting that the accelerometer is not supported. -/
def envAccelUnsupported : HwEnv :=
  { envAllOk with accel_supported := false }

/-- A single-channel adapter state. -/
def stSingle : SkState :=
  { dual_channel := false
    sample_rate := 7000000
    bandwidth := 6000000
    sidekiq_system_time_interval_nanos := 25 }

/-- A dual-channel adapter state. -/
def stDual : SkState := { stSingle with dual_channel := true }

/-! ### Helper lemmas -/

/-- The cast of a non-negative rational truncated to an unsigned integer
equals its floor. -/
theorem castUInt32_eq_floor {x : ℚ} (hx : 0 ≤ x) :
    ((castUInt32 x : Nat) : ℤ) = ⌊x⌋ :=
  Int.toNat_of_nonneg (Int.floor_nonneg.mpr hx)

/-- Same as `castUInt32_eq_floor` for the 64-bit cast. -/
theorem castUInt64_eq_floor {x : ℚ} (hx : 0 ≤ x) :
    ((castUInt64 x : Nat) : ℤ) = ⌊x⌋ :=
  Int.toNat_of_nonneg (Int.floor_nonneg.mpr hx)

/-- The fractional-seconds component produced by
`get_pmt_cons_from_timestamp` always lies in `[0, 1)`. -/
theorem get_pmt_cons_frac_bounds (t : Nat) :
    0 ≤ (get_pmt_cons_from_timestamp t).2 ∧
    (get_pmt_cons_from_timestamp t).2 < 1 := by
  unfold get_pmt_cons_from_timestamp NANOSECONDS_IN_SECOND
  constructor
  · positivity
  · rw [div_lt_one (by norm_num)]
    exact_mod_cast Nat.mod_lt t (by norm_num)

/-! ### Claim theorems -/

/-- C8: selecting the external-pulse (`SYNC_GPS_PPS`) synchronization mode
performs no hardware action: `set_sync_type` issues no vendor call, leaves
the adapter state unchanged, and returns normally. -/
theorem set_sync_type_gps_pps_noop (env : HwEnv) (st : SkState) :
    set_sync_type env st SYNC_GPS_PPS = ⟨.ok (), st, []⟩ := by
  simp [set_sync_type, SYNC_GPS_PPS, SYNC_ZERO, SYNC_SYSTEM_TIME]

/-- C9: for every synchronization selector other than the three recognized
values (`SYNC_ZERO = 1`, `SYNC_GPS_PPS = 2`, `SYNC_SYSTEM_TIME = 3`),
`set_sync_type` silently does nothing: no hardware call, no failure, and
the adapter state is unchanged. -/
theorem set_sync_type_unknown_noop (env : HwEnv) (st : SkState) (sync : Int)
    (h1 : sync ≠ SYNC_ZERO) (h2 : sync ≠ SYNC_GPS_PPS)
    (h3 : sync ≠ SYNC_SYSTEM_TIME) :
    set_sync_type env st sync = ⟨.ok (), st, []⟩ := by
  simp [set_sync_type, h1, h2, h3]

/-- Witness for C9, at the out-of-range selector 0. -/
theorem set_sync_type_unknown_noop_witness :
    set_sync_type envAllOk stSingle 0 = ⟨.ok (), stSingle, []⟩ :=
  set_sync_type_unknown_noop envAllOk stSingle 0 (by decide) (by decide)
    (by decide)

/-- C7: when the hardware reports the accelerometer unsupported,
`read_accelerometer` completes normally having issued only the support
query (no power-on, sample, or power-off); when supported, it powers on,
samples once, powers off, and returns normally when the sample read
succeeds. -/
theorem read_accelerometer_support_spec (env : HwEnv) (st : SkState) :
    (env.accel_supported = false →
      (read_accelerometer env st).result = .ok () ∧
      (read_accelerometer env st).trace = [.isAccelSupportedCall]) ∧
    (env.accel_supported = true →
      (read_accelerometer env st).trace =
        [.isAccelSupportedCall, .writeAccelStateCall true, .readAccelCall,
         .writeAccelStateCall false] ∧
      (env.read_accel_status = 0 →
        (read_accelerometer env st).result = .ok ())) := by
  constructor
  · intro hsup
    simp [read_accelerometer, hsup]
  · intro hsup
    by_cases hs : env.read_accel_status = 0 <;>
      simp [read_accelerometer, hsup, hs]

/-- Witness for C7, on hardware without an accelerometer. -/
theorem read_accelerometer_support_spec_witness :
    (read_accelerometer envAccelUnsupported stSingle).result = .ok () ∧
    (read_accelerometer envAccelUnsupported stSingle).trace =
      [.isAccelSupportedCall] :=
  (read_accelerometer_support_spec envAccelUnsupported stSingle).1 rfl

/-- C10: on hardware that supports the accelerometer, the power-off write
is always the last vendor call issued by `read_accelerometer` — also when
the sample read reports a non-zero status, in which case the failure is
raised only after the power-off. -/
theorem read_accelerometer_always_powers_off (env : HwEnv) (st : SkState)
    (hsup : env.accel_supported = true) :
    (read_accelerometer env st).trace =
      [.isAccelSupportedCall, .writeAccelStateCall true, .readAccelCall,
       .writeAccelStateCall false] ∧
    (env.read_accel_status ≠ 0 →
      (read_accelerometer env st).result =
        .error "Failure: skiq_write_accel_state") := by
  by_cases hs : env.read_accel_status = 0 <;>
    simp [read_accelerometer, hsup, hs]

/-- Witness for C10, with a failing sample read (status 7). -/
theorem read_accelerometer_always_powers_off_witness :
    (read_accelerometer envAccelFail stSingle).trace =
      [.isAccelSupportedCall, .writeAccelStateCall true, .readAccelCall,
       .writeAccelStateCall false] ∧
    ((7 : Int) ≠ 0 →
      (read_accelerometer envAccelFail stSingle).result =
        .error "Failure: skiq_write_accel_state") :=
  read_accelerometer_always_powers_off envAccelFail stSingle rfl

/-- C6: with host-clock synchronization selected, `set_sync_type` issues
exactly one hardware write, carrying the host wall-clock nanoseconds
divided by the cached nanoseconds-per-tick interval, the interval itself
being `10^9` integer-divided by the queried timestamp frequency (as
computed at construction, src line 69). -/
theorem set_sync_type_host_clock_spec (env : HwEnv) (st : SkState)
    (freq : Nat) (hfpos : 0 < freq) (hfle : freq ≤ NANOSECONDS_IN_SECOND)
    (hint : st.sidekiq_system_time_interval_nanos = mk_interval_nanos freq) :
    (set_sync_type env st SYNC_SYSTEM_TIME).trace =
      [.updateTimestampsCall
        (env.host_clock_nanos / (NANOSECONDS_IN_SECOND / freq))] ∧
    (env.update_timestamps_status = 0 →
      (set_sync_type env st SYNC_SYSTEM_TIME).result = .ok ()) := by
  by_cases hu : env.update_timestamps_status = 0 <;>
    simp [set_sync_type, set_sidekiq_system_timestamp, SYNC_ZERO,
      SYNC_GPS_PPS, SYNC_SYSTEM_TIME, hint, mk_interval_nanos, hu]

/-- Witness for C6: a 40 MHz timestamp clock gives a 25 ns tick, and the
host clock at 2500000017 ns is written as tick 100000000. -/
theorem set_sync_type_host_clock_spec_witness :
    (set_sync_type envAllOk stSingle SYNC_SYSTEM_TIME).trace =
      [.updateTimestampsCall
        (envAllOk.host_clock_nanos / (NANOSECONDS_IN_SECOND / 40000000))] ∧
    (envAllOk.update_timestamps_status = 0 →
      (set_sync_type envAllOk stSingle SYNC_SYSTEM_TIME).result = .ok ()) :=
  set_sync_type_host_clock_spec envAllOk stSingle 40000000 (by decide)
    (by decide) (by decide)

/-- C1: `set_samplerate_bandwidth(r, b)` with non-negative `r`, `b` (in the
cast's defined domain): on primary-channel success the cached rate and
bandwidth equal `(⌊r⌋, ⌊b⌋)`; on primary-channel failure the previous
cache is unchanged; and in dual-channel mode a secondary-channel failure
raises a failure while the primary's truncated values stay cached. -/
theorem set_samplerate_bandwidth_cache_spec (env : HwEnv) (st : SkState)
    (r b : ℚ) (h0r : 0 ≤ r) (h0b : 0 ≤ b)
    (hr : r < 2 ^ 32) (hb : b < 2 ^ 32) :
    (env.set_sample_rate_status .primary (castUInt32 r) (castUInt32 b) = 0 →
      ((set_samplerate_bandwidth env st r b).state.sample_rate : ℤ) = ⌊r⌋ ∧
      ((set_samplerate_bandwidth env st r b).state.bandwidth : ℤ) = ⌊b⌋) ∧
    (env.set_sample_rate_status .primary (castUInt32 r) (castUInt32 b) ≠ 0 →
      (set_samplerate_bandwidth env st r b).state = st) ∧
    (st.dual_channel = true →
      env.set_sample_rate_status .primary (castUInt32 r) (castUInt32 b) = 0 →
      env.set_sample_rate_status .secondary (castUInt32 r) (castUInt32 b) ≠ 0 →
      (set_samplerate_bandwidth env st r b).result =
        .error "Failure: set samplerate" ∧
      ((set_samplerate_bandwidth env st r b).state.sample_rate : ℤ) = ⌊r⌋ ∧
      ((set_samplerate_bandwidth env st r b).state.bandwidth : ℤ) = ⌊b⌋) := by
  refine ⟨?_, ?_, ?_⟩
  · intro hp
    by_cases hd : st.dual_channel
    · by_cases hs :
        env.set_sample_rate_status .secondary (castUInt32 r) (castUInt32 b)
          = 0 <;>
        simp [set_samplerate_bandwidth, hp, hd, hs,
          castUInt32_eq_floor h0r, castUInt32_eq_floor h0b]
    · simp [set_samplerate_bandwidth, hp, hd,
        castUInt32_eq_floor h0r, castUInt32_eq_floor h0b]
  · intro hp
    unfold set_samplerate_bandwidth
    simp [hp]
  · intro hd hp hs
    unfold set_samplerate_bandwidth
    simp [hd, hp, hs, castUInt32_eq_floor h0r, castUInt32_eq_floor h0b]

/-- Witness for C1: a dual-channel adapter, all calls succeeding, caches
`(⌊10.5⌋, ⌊8.25⌋)` after `set_samplerate_bandwidth 10.5 8.25`. -/
theorem set_samplerate_bandwidth_cache_spec_witness :
    ((set_samplerate_bandwidth envAllOk stDual (10.5 : ℚ)
        (8.25 : ℚ)).state.sample_rate : ℤ) = ⌊(10.5 : ℚ)⌋ ∧
    ((set_samplerate_bandwidth envAllOk stDual (10.5 : ℚ)
        (8.25 : ℚ)).state.bandwidth : ℤ) = ⌊(8.25 : ℚ)⌋ :=
  (set_samplerate_bandwidth_cache_spec envAllOk stDual 10.5 8.25
    (by norm_num) (by norm_num) (by norm_num) (by norm_num)).1 rfl

/-- C3: in dual-channel mode every `start_streaming` / `stop_streaming`
call issues its vendor streaming call on the secondary handle first —
the trace is either the secondary call alone (secondary failed) or the
secondary strictly followed by the primary, and when the secondary call
succeeds both handles are operated on in that order; in single-channel
mode only the primary handle is operated on. -/
theorem streaming_secondary_before_primary (env : HwEnv) (st : SkState) :
    (st.dual_channel = true →
      ((start_streaming env st).trace = [.startStreamingCall .secondary] ∨
       (start_streaming env st).trace =
         [.startStreamingCall .secondary, .startStreamingCall .primary]) ∧
      (env.start_streaming_status .secondary = 0 →
        (start_streaming env st).trace =
          [.startStreamingCall .secondary, .startStreamingCall .primary]) ∧
      ((stop_streaming env st).trace = [.stopStreamingCall .secondary] ∨
       (stop_streaming env st).trace =
         [.stopStreamingCall .secondary, .stopStreamingCall .primary]) ∧
      (env.stop_streaming_status .secondary = 0 →
        (stop_streaming env st).trace =
          [.stopStreamingCall .secondary, .stopStreamingCall .primary])) ∧
    (st.dual_channel = false →
      (start_streaming env st).trace = [.startStreamingCall .primary] ∧
      (stop_streaming env st).trace = [.stopStreamingCall .primary]) := by
  constructor
  · intro hd
    refine ⟨?_, ?_, ?_, ?_⟩
    · by_cases h2 : env.start_streaming_status .secondary = 0
      · by_cases h1 : env.start_streaming_status .primary = 0 <;>
          simp [start_streaming, hd, h1, h2]
      · simp [start_streaming, hd, h2]
    · intro h2
      by_cases h1 : env.start_streaming_status .primary = 0 <;>
        simp [start_streaming, hd, h1, h2]
    · by_cases h2 : env.stop_streaming_status .secondary = 0
      · by_cases h1 : env.stop_streaming_status .primary = 0 <;>
          simp [stop_streaming, hd, h1, h2]
      · simp [stop_streaming, hd, h2]
    · intro h2
      by_cases h1 : env.stop_streaming_status .primary = 0 <;>
        simp [stop_streaming, hd, h1, h2]
  · intro hd
    constructor
    · by_cases h1 : env.start_streaming_status .primary = 0 <;>
        simp [start_streaming, hd, h1]
    · by_cases h1 : env.stop_streaming_status .primary = 0 <;>
        simp [stop_streaming, hd, h1]

/-- Witness for C3, on a dual-channel adapter with all calls succeeding. -/
theorem streaming_secondary_before_primary_witness :
    (start_streaming envAllOk stDual).trace =
      [.startStreamingCall .secondary, .startStreamingCall .primary] ∧
    (stop_streaming envAllOk stDual).trace =
      [.stopStreamingCall .secondary, .stopStreamingCall .primary] :=
  ⟨((streaming_secondary_before_primary envAllOk stDual).1 rfl).2.1 rfl,
   ((streaming_secondary_before_primary envAllOk stDual).1 rfl).2.2.2 rfl⟩

/-- C4: `set_frequency f` in dual-channel mode targets both channels with
the same truncated value `⌊f⌋`, secondary strictly first; a non-zero
secondary status raises a failure before the primary call is issued, and
with the secondary successful exactly two frequency-set calls occur, a
primary failure raising and full success returning status 0. -/
theorem set_frequency_dual_spec (env : HwEnv) (st : SkState) (f : ℚ)
    (h0 : 0 ≤ f) (hf : f < 2 ^ 64) (hdual : st.dual_channel = true) :
    ((castUInt64 f : ℤ) = ⌊f⌋) ∧
    (env.set_frequency_status .secondary (castUInt64 f) ≠ 0 →
      (set_frequency env st f).result = .error "Failure: set frequency" ∧
      (set_frequency env st f).trace =
        [.setFrequencyCall .secondary (castUInt64 f)]) ∧
    (env.set_frequency_status .secondary (castUInt64 f) = 0 →
      (set_frequency env st f).trace =
        [.setFrequencyCall .secondary (castUInt64 f),
         .setFrequencyCall .primary (castUInt64 f)] ∧
      (env.set_frequency_status .primary (castUInt64 f) ≠ 0 →
        (set_frequency env st f).result = .error "Failure: set frequency") ∧
      (env.set_frequency_status .primary (castUInt64 f) = 0 →
        (set_frequency env st f).result = .ok 0)) := by
  refine ⟨castUInt64_eq_floor h0, ?_, ?_⟩
  · intro hs
    simp [set_frequency, hdual, hs]
  · intro hs
    by_cases hp : env.set_frequency_status .primary (castUInt64 f) = 0 <;>
      simp [set_frequency, hdual, hs, hp]

/-- Witness for C4, at the spec's example target 2450 MHz with both calls
succeeding. -/
theorem set_frequency_dual_spec_witness :
    (set_frequency envAllOk stDual (2450e6 : ℚ)).trace =
      [.setFrequencyCall .secondary (castUInt64 (2450e6 : ℚ)),
       .setFrequencyCall .primary (castUInt64 (2450e6 : ℚ))] ∧
    (set_frequency envAllOk stDual (2450e6 : ℚ)).result = .ok 0 :=
  ⟨((set_frequency_dual_spec envAllOk stDual 2450e6 (by norm_num)
      (by norm_num) rfl).2.2 rfl).1,
   ((set_frequency_dual_spec envAllOk stDual 2450e6 (by norm_num)
      (by norm_num) rfl).2.2 rfl).2.2 rfl⟩

/-- C5: every dictionary returned by `get_telemetry_pmt` holds exactly the
two fixed telemetry keys, in order, each mapped to a (whole seconds,
fractional seconds) pair whose fractional component lies in `[0, 1)`. -/
theorem get_telemetry_pmt_keys_and_fractions (env : HwEnv) (st : SkState)
    (d : TelemetryDict)
    (h : (get_telemetry_pmt env st).result = .ok d) :
    d.map Prod.fst =
      [TelemetryKey.CMD_CURRENT_USRP_TIME,
       TelemetryKey.CMD_CURRENT_HOST_TIME] ∧
    ∀ kv ∈ d, 0 ≤ kv.2.2 ∧ kv.2.2 < 1 := by
  rw [get_telemetry_pmt] at h
  split at h
  · simp at h
  · simp only at h
    rw [Except.ok.injEq] at h
    subst h
    refine ⟨rfl, ?_⟩
    intro kv hkv
    simp [pmt_dict_add, pmt_make_dict] at hkv
    rcases hkv with hkv | hkv <;>
      · subst hkv
        exact get_pmt_cons_frac_bounds _

/-- Witness for C5, in the all-success environment. -/
theorem get_telemetry_pmt_keys_and_fractions_witness :
    (pmt_dict_add
        (pmt_dict_add pmt_make_dict .CMD_CURRENT_USRP_TIME
          (get_pmt_cons_from_timestamp
            (envAllOk.curr_sys_timestamp *
              stSingle.sidekiq_system_time_interval_nanos)))
        .CMD_CURRENT_HOST_TIME
        (get_pmt_cons_from_timestamp envAllOk.host_clock_nanos)).map
      Prod.fst =
      [TelemetryKey.CMD_CURRENT_USRP_TIME,
       TelemetryKey.CMD_CURRENT_HOST_TIME] ∧
    ∀ kv ∈ pmt_dict_add
        (pmt_dict_add pmt_make_dict .CMD_CURRENT_USRP_TIME
          (get_pmt_cons_from_timestamp
            (envAllOk.curr_sys_timestamp *
              stSingle.sidekiq_system_time_interval_nanos)))
        .CMD_CURRENT_HOST_TIME
        (get_pmt_cons_from_timestamp envAllOk.host_clock_nanos),
      0 ≤ kv.2.2 ∧ kv.2.2 < 1 :=
  get_telemetry_pmt_keys_and_fractions envAllOk stSingle _ rfl

/-- C2 counterexample: with every vendor frequency-set call reporting
status 5, `get_set_frequency_call_latency` still issues its wrapped
frequency-set call and returns normally — the status is never inspected
(src lines 427-434), so a hardware error is masked as success. -/
theorem latency_probe_masks_nonzero_status :
    envFreqFail.set_frequency_status .primary 2400000000 = 5 ∧
    (get_set_frequency_call_latency envFreqFail stSingle .primary).trace =
      [.setFrequencyCall .primary 2400000000] ∧
    (get_set_frequency_call_latency envFreqFail stSingle .primary).result =
      .ok () := by
  refine ⟨rfl, ?_, rfl⟩
  show [HwCall.setFrequencyCall .primary (castUInt64 (2400e6 : ℚ))] = _
  norm_num [castUInt64]
  rfl

/-- C2 (amended): every modelled operation other than
`get_set_frequency_call_latency` — whose wrapped frequency-set status is
never inspected — and other than the accelerometer support-query and
power-state writes — whose statuses `read_accelerometer` ignores —
returns normally only if every status-checked wrapped call it issued
reported zero. -/
theorem nonzero_status_raises_except_probe (env : HwEnv) (st : SkState)
    (r b f : ℚ) :
    (∀ s : Int, (start_streaming env st).result = .ok s →
      env.start_streaming_status .primary = 0 ∧
      (st.dual_channel = true → env.start_streaming_status .secondary = 0)) ∧
    (∀ s : Int, (stop_streaming env st).result = .ok s →
      env.stop_streaming_status .primary = 0 ∧
      (st.dual_channel = true → env.stop_streaming_status .secondary = 0)) ∧
    (∀ s : Int, (set_frequency env st f).result = .ok s →
      env.set_frequency_status .primary (castUInt64 f) = 0 ∧
      (st.dual_channel = true →
        env.set_frequency_status .secondary (castUInt64 f) = 0)) ∧
    (∀ s : Int, (set_samplerate_bandwidth env st r b).result = .ok s →
      env.set_sample_rate_status .primary (castUInt32 r) (castUInt32 b)
        = 0 ∧
      (st.dual_channel = true →
        env.set_sample_rate_status .secondary (castUInt32 r) (castUInt32 b)
          = 0)) ∧
    ((set_sync_type env st SYNC_ZERO).result = .ok () →
      env.reset_timestamps_status = 0) ∧
    ((set_sync_type env st SYNC_SYSTEM_TIME).result = .ok () →
      env.update_timestamps_status = 0) ∧
    (∀ d : TelemetryDict, (get_telemetry_pmt env st).result = .ok d →
      env.read_curr_sys_timestamp_status = 0) ∧
    (env.accel_supported = true →
      (read_accelerometer env st).result = .ok () →
      env.read_accel_status = 0) := by
  refine ⟨?_, ?_, ?_, ?_, ?_, ?_, ?_, ?_⟩
  · intro s h
    by_cases hd : st.dual_channel <;>
      by_cases h1 : env.start_streaming_status .primary = 0 <;>
      by_cases h2 : env.start_streaming_status .secondary = 0 <;>
      simp_all [start_streaming]
  · intro s h
    by_cases hd : st.dual_channel <;>
      by_cases h1 : env.stop_streaming_status .primary = 0 <;>
      by_cases h2 : env.stop_streaming_status .secondary = 0 <;>
      simp_all [stop_streaming]
  · intro s h
    by_cases hd : st.dual_channel <;>
      by_cases h1 : env.set_frequency_status .primary (castUInt64 f) = 0 <;>
      by_cases h2 :
        env.set_frequency_status .secondary (castUInt64 f) = 0 <;>
      simp_all [set_frequency]
  · intro s h
    by_cases hd : st.dual_channel <;>
      by_cases h1 :
        env.set_sample_rate_status .primary (castUInt32 r) (castUInt32 b)
          = 0 <;>
      by_cases h2 :
        env.set_sample_rate_status .secondary (castUInt32 r) (castUInt32 b)
          = 0 <;>
      simp_all [set_samplerate_bandwidth]
  · intro h
    by_cases h1 : env.reset_timestamps_status = 0 <;>
      simp_all [set_sync_type, set_zero_timestamp, SYNC_ZERO]
  · intro h
    by_cases h1 : env.update_timestamps_status = 0 <;>
      simp_all [set_sync_type, set_sidekiq_system_timestamp, SYNC_ZERO,
        SYNC_GPS_PPS, SYNC_SYSTEM_TIME]
  · intro d h
    by_cases h1 : env.read_curr_sys_timestamp_status = 0
    · exact h1
    · rw [get_telemetry_pmt] at h
      split at h
      · simp at h
      · rename_i heq
        rw [get_sidekiq_system_timestamp] at heq
        simp [h1] at heq
  · intro hsup h
    by_cases h1 : env.read_accel_status = 0 <;>
      simp_all [read_accelerometer, hsup]

/-- Witness for the amended C2: on a dual-channel adapter in the
all-success environment, `start_streaming` returns status 0 and the
theorem yields that both channel statuses were zero. -/
theorem nonzero_status_raises_except_probe_witness :
    envAllOk.start_streaming_status .primary = 0 ∧
    (stDual.dual_channel = true →
      envAllOk.start_streaming_status .secondary = 0) :=
  (nonzero_status_raises_except_probe envAllOk stDual 10.5 8.25
    2450e6).1 0 rfl

end GrSidekiq
